import Mathlib

/-!
Shallow embedding of `src/ejtraderIQ/__init__.py`, the simulated IQ Option
trading API client.  Python floats are modelled as rationals; the global
pseudo-random source is modelled as an explicit stream (`RNG`) of uniform
draws in `[0,1)` for `random.random()` and of three-way choices for
`random.choice(["win", "loss", "open"])`.  Exceptions are modelled with
`Except`: every operation returns its outcome together with the session
state and the random stream at the moment the call ends, so that partial
mutation before a raise is captured faithfully.
-/

/-- The three-way draw performed by
`random.choice(["win", "loss", "open"])` in `check_order_status`. -/
inductive Choice3 : Type
  | win
  | loss
  | stillOpen
deriving DecidableEq, Repr

/-- The string that the Python `random.choice(["win", "loss", "open"])`
call returns for each abstract draw. -/
def Choice3.pick : Choice3 → String
  | .win => "win"
  | .loss => "loss"
  | .stillOpen => "open"

/-- Explicit random source: a stream of `random.random()` values (rationals,
well-formed streams keep them in `[0,1)`) and a stream of three-way choices,
each with a cursor. -/
structure RNG : Type where
  floats : Nat → ℚ
  choices : Nat → Choice3
  fi : Nat
  ci : Nat

/-- Well-formedness of a random stream: every `random.random()` value lies
in `[0, 1)`, as in Python. -/
def RNG.WF (r : RNG) : Prop := ∀ n, 0 ≤ r.floats n ∧ r.floats n < 1

/-- Advance the `random.random()` cursor. -/
def RNG.bumpF (r : RNG) : RNG := { r with fi := r.fi + 1 }

/-- Advance the `random.choice` cursor. -/
def RNG.bumpC (r : RNG) : RNG := { r with ci := r.ci + 1 }

theorem RNG.WF.bumpF {r : RNG} (h : r.WF) : r.bumpF.WF := h

theorem RNG.WF.bumpC {r : RNG} (h : r.WF) : r.bumpC.WF := h

/-- The exception classes of the module: `SymbolNotFoundError`,
`OrderConflictError` (its docstring: raised when an order cannot be found
or modified), `APIUnavailableError`, and the Python builtin `ValueError`
used for invalid direction or non-positive amount. -/
inductive Err : Type
  | symbolNotFound (symbol : String)
  | orderConflict (msg : String)
  | apiUnavailable
  | valueError (msg : String)
deriving DecidableEq, Repr

/-- The `Order` dataclass. -/
structure Order : Type where
  id : Nat
  symbol : String
  direction : String
  amount : ℚ
  status : String
  result : ℚ
deriving DecidableEq, Repr

/-- The mutable state of an `IQOption` session: `self._balance`,
`self._orders` (a dict, modelled as an association list with dict-style
assignment), `self._order_counter`, plus the configuration attributes. -/
structure Session : Type where
  email : String
  password : String
  account_type : String
  _balance : ℚ
  _orders : List (Nat × Order)
  _order_counter : Nat
  fail_chance : ℚ
  max_retries : Nat
  available_symbols : List String
deriving DecidableEq, Repr

/-- Model of `self._orders.get(order_id)`. -/
def lookupOrder (l : List (Nat × Order)) (i : Nat) : Option Order :=
  (l.find? (fun p => p.1 = i)).map Prod.snd

/-- Dict assignment `self._orders[i] = o`: replace the entry if the key is
present, otherwise append a new entry. -/
def setOrder (l : List (Nat × Order)) (i : Nat) (o : Order) : List (Nat × Order) :=
  if (l.find? (fun p => p.1 = i)).isSome then
    l.map (fun p => if p.1 = i then (i, o) else p)
  else
    l ++ [(i, o)]

/-- The Python method `str.upper()` as used on the account type, modelled
characterwise (it agrees with `String.toUpper`, mapping `Char.toUpper`
over the characters). -/
def pyUpper (s : String) : String := ⟨s.data.map Char.toUpper⟩

/-- The constructor `IQOption.__init__`: demo-type accounts start with balance 1000,
others with 0; the order table is empty, the counter 0, and the symbol
set is the fixed three-element list. -/
def IQOption.mk (email password account_type : String) (fail_chance : ℚ)
    (max_retries : Nat) : Session :=
  { email := email
    password := password
    account_type := account_type
    _balance := if pyUpper account_type = "DEMO" then 1000 else 0
    _orders := []
    _order_counter := 0
    fail_chance := fail_chance
    max_retries := max_retries
    available_symbols := ["EURUSD", "USDJPY", "GBPUSD"] }

/-- Result of an operation: outcome, session state and random stream when
the call returns or the exception propagates. -/
abbrev Res (α : Type) := Except Err α × Session × RNG

namespace IQOption

/-- The body of `_with_retry`, with `fuel` the number of further
`APIUnavailableError` outcomes tolerated before re-raising (the Python
loop raises on the `max(max_retries, 1)`-th consecutive failure).  Each
iteration first draws `random.random()` (`_simulate_api_call`) and raises
`APIUnavailableError` if the draw is below `fail_chance`; otherwise it
runs the wrapped body.  The `except APIUnavailableError` clause also
catches an `APIUnavailableError` raised by the body itself — in that case
the state the body left behind is carried into the retry.  Any other
outcome of the body (success or a domain error) is returned unmodified. -/
def withRetryAux (fc : ℚ) (f : Session → RNG → Res α) :
    Nat → Session → RNG → Res α
  | fuel, s, r =>
    if r.floats r.fi < fc then
      match fuel with
      | n + 2 => withRetryAux fc f (n + 1) s r.bumpF
      | _ => (Except.error Err.apiUnavailable, s, r.bumpF)
    else
      match f s r.bumpF with
      | (Except.error Err.apiUnavailable, s1, r1) =>
        match fuel with
        | n + 2 => withRetryAux fc f (n + 1) s1 r1
        | _ => (Except.error Err.apiUnavailable, s1, r1)
      | out => out

/-- The wrapper `IQOption._with_retry`: `attempts` starts at 0 and each caught
`APIUnavailableError` increments it; the exception is re-raised once
`attempts >= max_retries`, so `max max_retries 1` consecutive failures
are needed to surface it. -/
def with_retry (fc : ℚ) (max_retries : Nat) (f : Session → RNG → Res α)
    (s : Session) (r : RNG) : Res α :=
  withRetryAux fc f (max max_retries 1) s r

/-- The operation `IQOption.balance`: returns `self._balance` directly; it is not routed
through `_with_retry` and performs no side effect. -/
def balance (s : Session) : ℚ := s._balance

/-- Body of `get_payout_estimate`. -/
def get_payout_estimate_impl (symbol : String) (s : Session) (r : RNG) : Res ℚ :=
  if symbol ∈ s.available_symbols then (Except.ok (0.80 : ℚ), s, r)
  else (Except.error (Err.symbolNotFound symbol), s, r)

/-- The wrapped operation `IQOption.get_payout_estimate`. -/
def get_payout_estimate (symbol : String) (s : Session) (r : RNG) : Res ℚ :=
  with_retry s.fail_chance s.max_retries (get_payout_estimate_impl symbol) s r

/-- Body of `place_order`: validates the symbol, the direction and the
amount (in that order), then increments the counter, stores the new open
order under the new id, debits the amount and returns the id. -/
def place_order_impl (symbol direction : String) (amount : ℚ)
    (s : Session) (r : RNG) : Res Nat :=
  if symbol ∈ s.available_symbols then
    if direction ∈ (["buy", "sell"] : List String) then
      if amount ≤ 0 then
        (Except.error (Err.valueError "amount must be positive"), s, r)
      else
        let order_id := s._order_counter + 1
        let order : Order :=
          { id := order_id, symbol := symbol, direction := direction
            amount := amount, status := "open", result := 0 }
        (Except.ok order_id,
          { s with
              _order_counter := order_id
              _orders := setOrder s._orders order_id order
              _balance := s._balance - amount }, r)
    else
      (Except.error (Err.valueError "direction must be buy or sell"), s, r)
  else (Except.error (Err.symbolNotFound symbol), s, r)

/-- The wrapped operation `IQOption.place_order`. -/
def place_order (symbol direction : String) (amount : ℚ)
    (s : Session) (r : RNG) : Res Nat :=
  with_retry s.fail_chance s.max_retries (place_order_impl symbol direction amount) s r

/-- Body of `check_order_status`.  A missing id raises
`OrderConflictError("Unknown order ...")`.  An open order first has its
status overwritten with the three-way draw; a `win` draw then calls the
wrapped `get_payout_estimate` (which may itself raise
`APIUnavailableError`, leaving the already-mutated status behind), sets
`result = amount * payout` and credits `amount + result`; a `loss` draw
sets `result = -amount`; an `open` draw resets `result` to 0.  A
non-open order is returned as stored, with no mutation. -/
def check_order_status_impl (order_id : Nat) (s : Session) (r : RNG) :
    Res (String × ℚ) :=
  match lookupOrder s._orders order_id with
  | none =>
    (Except.error (Err.orderConflict ("Unknown order " ++ toString order_id)), s, r)
  | some order =>
    if order.status = "open" then
      let st := (r.choices r.ci).pick
      let r1 := r.bumpC
      let s1 := { s with _orders := setOrder s._orders order_id { order with status := st } }
      if st = "win" then
        match get_payout_estimate order.symbol s1 r1 with
        | (Except.ok payout, s2, r2) =>
          let result := order.amount * payout
          (Except.ok ("win", result),
            { s2 with
                _orders := setOrder s2._orders order_id
                  { order with status := st, result := result }
                _balance := s2._balance + order.amount + result }, r2)
        | (Except.error e, s2, r2) => (Except.error e, s2, r2)
      else if st = "loss" then
        (Except.ok ("loss", -order.amount),
          { s1 with
              _orders := setOrder s1._orders order_id
                { order with status := st, result := -order.amount } }, r1)
      else
        (Except.ok ("open", 0),
          { s1 with
              _orders := setOrder s1._orders order_id
                { order with status := st, result := 0 } }, r1)
    else (Except.ok (order.status, order.result), s, r)

/-- The wrapped operation `IQOption.check_order_status`. -/
def check_order_status (order_id : Nat) (s : Session) (r : RNG) : Res (String × ℚ) :=
  with_retry s.fail_chance s.max_retries (check_order_status_impl order_id) s r

/-- Body of `cancel_order`: a missing id raises
`OrderConflictError("Unknown order ...")`; a non-open order raises
`OrderConflictError("Order cannot be cancelled")`; otherwise the status
becomes `cancelled`, the amount is credited back and `result` is reset
to 0. -/
def cancel_order_impl (order_id : Nat) (s : Session) (r : RNG) : Res Bool :=
  match lookupOrder s._orders order_id with
  | none =>
    (Except.error (Err.orderConflict ("Unknown order " ++ toString order_id)), s, r)
  | some order =>
    if order.status = "open" then
      (Except.ok true,
        { s with
            _orders := setOrder s._orders order_id
              { order with status := "cancelled", result := 0 }
            _balance := s._balance + order.amount }, r)
    else (Except.error (Err.orderConflict "Order cannot be cancelled"), s, r)

/-- The wrapped operation `IQOption.cancel_order`. -/
def cancel_order (order_id : Nat) (s : Session) (r : RNG) : Res Bool :=
  with_retry s.fail_chance s.max_retries (cancel_order_impl order_id) s r

end IQOption

open IQOption

/-- The order-table invariant maintained by a session: every stored entry
maps its key to an order whose `id` field equals the key, keys are
positive and bounded by the counter, and keys are pairwise distinct. -/
def SessionInv (s : Session) : Prop :=
  (∀ p ∈ s._orders, p.2.id = p.1 ∧ 1 ≤ p.1 ∧ p.1 ≤ s._order_counter) ∧
  (s._orders.map Prod.fst).Nodup

/-- What a single operation may do to the id structure of a session: the
counter never decreases, and every stored order survives with its `id`
field intact (orders are never deleted and ids never reassigned). -/
def Step (s s' : Session) : Prop :=
  s._order_counter ≤ s'._order_counter ∧
  ∀ i o, lookupOrder s._orders i = some o →
    ∃ o', lookupOrder s'._orders i = some o' ∧ o'.id = o.id

/-- An operation body preserves the invariant and the id structure. -/
def Pres (f : Session → RNG → Res α) : Prop :=
  ∀ s r, SessionInv s → SessionInv (f s r).2.1 ∧ Step s (f s r).2.1

/-- One public call of the session, for lifetime statements. -/
inductive Op : Type
  | placeOrder (symbol direction : String) (amount : ℚ)
  | checkOrderStatus (order_id : Nat)
  | cancelOrder (order_id : Nat)
  | getPayoutEstimate (symbol : String)
  | balanceOp
deriving DecidableEq, Repr

/-- Run one public call, keeping the session and random stream it leaves
behind (whether it returned or raised). -/
def runOp : Op → Session → RNG → Session × RNG
  | .placeOrder symbol direction amount, s, r => (place_order symbol direction amount s r).2
  | .checkOrderStatus order_id, s, r => (check_order_status order_id s r).2
  | .cancelOrder order_id, s, r => (cancel_order order_id s r).2
  | .getPayoutEstimate symbol, s, r => (get_payout_estimate symbol s r).2
  | .balanceOp, s, r => (s, r)

/-- Run a sequence of public calls. -/
def runTrace : List Op → Session → RNG → Session × RNG
  | [], s, r => (s, r)
  | op :: ops, s, r => runTrace ops (runOp op s r).1 (runOp op s r).2

/-- A well-formed random stream whose `random.random()` draws are all
`1/2` and whose three-way choices are all `win`. -/
def constRNG : RNG :=
  { floats := fun _ => 1/2, choices := fun _ => Choice3.win, fi := 0, ci := 0 }

/-- A demo session configured with `fail_chance = 1`, `max_retries = 1`. -/
def sAllFail : Session := IQOption.mk "user" "pass" "DEMO" 1 1

/-- A fresh demo session with failure injection disabled. -/
def sFresh : Session := IQOption.mk "user" "pass" "DEMO" 0 3

/-- A session holding one already-resolved (`win`) order, with failure
injection disabled. -/
def sTerm : Session :=
  { sFresh with
      _orders := [(1, { id := 1, symbol := "EURUSD", direction := "buy"
                        amount := 10, status := "win", result := 8 })]
      _order_counter := 1
      _balance := 1008 }

/-- Draws for the state-mutation-despite-failure scenario: the first two
`random.random()` values pass a `fail_chance` of `1/2`, the later ones
fail it; every choice draw is `win`. -/
def rngC3 : RNG :=
  { floats := fun n => if n ≤ 1 then 3/5 else 3/10
    choices := fun _ => Choice3.win
    fi := 0, ci := 0 }

/-- A demo session with `fail_chance = 1/2` and `max_retries = 1`. -/
def sC3 : Session := IQOption.mk "user" "pass" "DEMO" (1/2) 1

/-- Place one order on `sC3` (the injection draw `3/5` passes). -/
def placeC3 : Res Nat := place_order "EURUSD" "buy" 10 sC3 rngC3

/-- Check the freshly placed order: the outer injection draw passes, the
three-way draw is `win`, and the nested `get_payout_estimate` call fails
its injection draw and exhausts `max_retries = 1`. -/
def checkC3 : Res (String × ℚ) := check_order_status 1 placeC3.2.1 placeC3.2.2

/-- Draws for the win-with-zero-result scenario: draws 2 and 3 (consumed
by the nested `get_payout_estimate` call) fail a `fail_chance` of `1/2`,
all others pass; every choice draw is `win`. -/
def rngC4 : RNG :=
  { floats := fun n => if n = 2 ∨ n = 3 then 3/10 else 3/5
    choices := fun _ => Choice3.win
    fi := 0, ci := 0 }

/-- A demo session with `fail_chance = 1/2` and `max_retries = 2`. -/
def sC4 : Session := IQOption.mk "user" "pass" "DEMO" (1/2) 2

/-- Place one order on `sC4`. -/
def placeC4 : Res Nat := place_order "EURUSD" "buy" 10 sC4 rngC4

/-- Check the freshly placed order: the first attempt draws `win`, then
the nested `get_payout_estimate` call fails twice and raises; the outer
wrapper retries, finds the order already `win`, and returns it with
`result = 0` and no balance credit. -/
def checkC4 : Res (String × ℚ) := check_order_status 1 placeC4.2.1 placeC4.2.2

namespace IQOption

/-- One unfolding of the retry loop. -/
theorem withRetryAux_eq {α : Type} (fc : ℚ) (f : Session → RNG → Res α) (fuel : Nat)
    (s : Session) (r : RNG) :
    withRetryAux fc f fuel s r =
      if r.floats r.fi < fc then
        match fuel with
        | n + 2 => withRetryAux fc f (n + 1) s r.bumpF
        | _ => (Except.error Err.apiUnavailable, s, r.bumpF)
      else
        match f s r.bumpF with
        | (Except.error Err.apiUnavailable, s1, r1) =>
          match fuel with
          | n + 2 => withRetryAux fc f (n + 1) s1 r1
          | _ => (Except.error Err.apiUnavailable, s1, r1)
        | out => out := by
  rw [withRetryAux.eq_def]

/-- If the injection draw passes and the body does not raise
`APIUnavailableError`, the wrapper is exactly one run of the body. -/
theorem withRetryAux_pass {α : Type} {fc : ℚ} {f : Session → RNG → Res α} (fuel : Nat)
    {s : Session} {r : RNG}
    (h1 : ¬ r.floats r.fi < fc)
    (h2 : (f s r.bumpF).1 ≠ Except.error Err.apiUnavailable) :
    withRetryAux fc f fuel s r = f s r.bumpF := by
  rw [withRetryAux_eq, if_neg h1]
  rcases hf : f s r.bumpF with ⟨res, s1, r1⟩
  rw [hf] at h2
  cases res with
  | ok v => rfl
  | error e =>
    cases e with
    | apiUnavailable => exact absurd rfl h2
    | symbolNotFound a => rfl
    | orderConflict a => rfl
    | valueError a => rfl

/-- The wrapper `_with_retry` under a passing injection draw and a body that does not
raise `APIUnavailableError` is one run of the body. -/
theorem with_retry_pass {α : Type} {fc : ℚ} (mr : Nat) {f : Session → RNG → Res α}
    {s : Session} {r : RNG}
    (h1 : ¬ r.floats r.fi < fc)
    (h2 : (f s r.bumpF).1 ≠ Except.error Err.apiUnavailable) :
    with_retry fc mr f s r = f s r.bumpF :=
  withRetryAux_pass (max mr 1) h1 h2

/-- With `max_retries = 1` a failing injection draw surfaces
`APIUnavailable` at once, before the body runs: the session is returned
untouched. -/
theorem with_retry_one_fail {α : Type} {fc : ℚ} {f : Session → RNG → Res α}
    {s : Session} {r : RNG} (h1 : r.floats r.fi < fc) :
    with_retry fc 1 f s r = (Except.error Err.apiUnavailable, s, r.bumpF) := by
  show withRetryAux fc f (max 1 1) s r = _
  rw [show max 1 1 = 1 from rfl, withRetryAux_eq, if_pos h1]

/-- The body of `place_order` never raises `APIUnavailableError`. -/
theorem place_order_impl_ne_api (symbol direction : String) (amount : ℚ)
    (s : Session) (r : RNG) :
    (place_order_impl symbol direction amount s r).1 ≠ Except.error Err.apiUnavailable := by
  unfold place_order_impl
  split
  · split
    · split
      · simp
      · simp
    · simp
  · simp

/-- The body of `get_payout_estimate` never raises `APIUnavailableError`. -/
theorem get_payout_estimate_impl_ne_api (symbol : String) (s : Session) (r : RNG) :
    (get_payout_estimate_impl symbol s r).1 ≠ Except.error Err.apiUnavailable := by
  unfold get_payout_estimate_impl
  split
  · simp
  · simp

/-- The body of `cancel_order` never raises `APIUnavailableError`. -/
theorem cancel_order_impl_ne_api (order_id : Nat) (s : Session) (r : RNG) :
    (cancel_order_impl order_id s r).1 ≠ Except.error Err.apiUnavailable := by
  unfold cancel_order_impl
  split
  · simp
  · split
    · simp
    · simp

/-- Preservation through the retry loop: any property `P` preserved by the
body, together with any reflexive transitive relation `R` established by
the body, also holds for the whole wrapped call — failed injection draws
run no body at all, and body-raised `APIUnavailableError` retries chain
through `R`. -/
theorem withRetryAux_pres {α : Type} {fc : ℚ} {f : Session → RNG → Res α}
    {P : Session → Prop} {R : Session → Session → Prop}
    (hrefl : ∀ s, R s s)
    (htrans : ∀ a b c, R a b → R b c → R a c)
    (hf : ∀ s r, P s → P (f s r).2.1 ∧ R s (f s r).2.1) :
    ∀ fuel s r, P s → P (withRetryAux fc f fuel s r).2.1 ∧
      R s (withRetryAux fc f fuel s r).2.1 := by
  intro fuel
  induction fuel using Nat.strong_induction_on with
  | _ fuel ih =>
    intro s r hP
    rw [withRetryAux_eq]
    split
    · match fuel with
      | 0 => exact ⟨hP, hrefl s⟩
      | 1 => exact ⟨hP, hrefl s⟩
      | n + 2 => exact ih (n + 1) (by omega) s r.bumpF hP
    · rcases hres : f s r.bumpF with ⟨res, s1, r1⟩
      have h1 := hf s r.bumpF hP
      rw [hres] at h1
      match res with
      | .ok v => exact h1
      | .error Err.apiUnavailable =>
        match fuel with
        | 0 => exact h1
        | 1 => exact h1
        | n + 2 =>
          have h2 := ih (n + 1) (by omega) s1 r1 h1.1
          exact ⟨h2.1, htrans _ _ _ h1.2 h2.2⟩
      | .error (Err.symbolNotFound a) => exact h1
      | .error (Err.orderConflict a) => exact h1
      | .error (Err.valueError a) => exact h1

/-- A wrapped call whose body never moves the session state leaves the
session state unchanged. -/
theorem with_retry_state_const {α : Type} {fc : ℚ} {mr : Nat} {f : Session → RNG → Res α}
    (hf : ∀ s r, (f s r).2.1 = s) (s : Session) (r : RNG) :
    (with_retry fc mr f s r).2.1 = s :=
  (withRetryAux_pres (P := fun _ => True) (R := fun a b => b = a)
    (fun _ => rfl) (fun _ _ _ hab hbc => by rw [hbc, hab])
    (fun s r _ => ⟨trivial, hf s r⟩) (max mr 1) s r trivial).2

/-- The wrapped `get_payout_estimate` never moves the session state. -/
theorem get_payout_estimate_state (symbol : String) (s : Session) (r : RNG) :
    (get_payout_estimate symbol s r).2.1 = s :=
  with_retry_state_const
    (fun s r => by unfold get_payout_estimate_impl; split <;> rfl) s r

end IQOption

/-- The constant stream is well-formed. -/
theorem constRNG_WF : constRNG.WF := fun _ => by
  constructor <;> norm_num [constRNG]

/-- Evaluating the Python `.upper()` call on the default account type. -/
theorem pyUpper_DEMO : pyUpper "DEMO" = "DEMO" := by decide

/-- C1 (amended): with `fail_chance = 1` and `max_retries = 1`, every
operation routed through `_with_retry` fails with `APIUnavailable` before
its body runs, leaving the session state exactly unchanged; `balance()`,
however, is not routed through the wrapper: it cannot fail and returns
the stored balance unchanged. -/
theorem claim1_all_fail_no_mutation (s : Session) (r : RNG)
    (hfc : s.fail_chance = 1) (hmr : s.max_retries = 1) (hr : r.WF)
    (symbol direction : String) (amount : ℚ) (order_id : Nat) :
    get_payout_estimate symbol s r = (Except.error Err.apiUnavailable, s, r.bumpF) ∧
    place_order symbol direction amount s r = (Except.error Err.apiUnavailable, s, r.bumpF) ∧
    check_order_status order_id s r = (Except.error Err.apiUnavailable, s, r.bumpF) ∧
    cancel_order order_id s r = (Except.error Err.apiUnavailable, s, r.bumpF) ∧
    balance s = s._balance := by
  have h1 : r.floats r.fi < s.fail_chance := by rw [hfc]; exact (hr r.fi).2
  refine ⟨?_, ?_, ?_, ?_, rfl⟩
  · unfold get_payout_estimate
    rw [hmr]
    exact with_retry_one_fail h1
  · unfold place_order
    rw [hmr]
    exact with_retry_one_fail h1
  · unfold check_order_status
    rw [hmr]
    exact with_retry_one_fail h1
  · unfold cancel_order
    rw [hmr]
    exact with_retry_one_fail h1

/-- C1 witness: the amended statement at a concrete demo session with
`fail_chance = 1`, `max_retries = 1` and a concrete well-formed stream. -/
theorem claim1_all_fail_no_mutation_witness :
    sAllFail.fail_chance = 1 ∧ sAllFail.max_retries = 1 ∧ constRNG.WF ∧
    (get_payout_estimate "EURUSD" sAllFail constRNG =
        (Except.error Err.apiUnavailable, sAllFail, constRNG.bumpF) ∧
     place_order "EURUSD" "buy" 10 sAllFail constRNG =
        (Except.error Err.apiUnavailable, sAllFail, constRNG.bumpF) ∧
     check_order_status 1 sAllFail constRNG =
        (Except.error Err.apiUnavailable, sAllFail, constRNG.bumpF) ∧
     cancel_order 1 sAllFail constRNG =
        (Except.error Err.apiUnavailable, sAllFail, constRNG.bumpF) ∧
     balance sAllFail = sAllFail._balance) :=
  ⟨rfl, rfl, constRNG_WF,
    claim1_all_fail_no_mutation sAllFail constRNG rfl rfl constRNG_WF "EURUSD" "buy" 10 1⟩

/-- C1 counterexample to the claim as stated: with `fail_chance = 1` and
`max_retries = 1`, `balance()` does not fail with `APIUnavailable` — it is
not routed through `_with_retry` at all and successfully returns the demo
balance 1000. -/
theorem claim1_counterexample : balance sAllFail = 1000 := by
  norm_num [balance, sAllFail, IQOption.mk, pyUpper_DEMO]

/-- C2 (amended): for any order id absent from the table,
`check_order_status` and `cancel_order` both fail immediately, without
retry and without state mutation — but with `OrderConflictError`
(message `Unknown order <id>`), the same exception class raised for a
cancel conflict; the code has no distinct `OrderNotFound` error kind. -/
theorem claim2_unknown_order_conflict (s : Session) (r : RNG) (order_id : Nat)
    (hfc : s.fail_chance = 0) (hr : r.WF)
    (hlk : lookupOrder s._orders order_id = none) :
    check_order_status order_id s r =
      (Except.error (Err.orderConflict ("Unknown order " ++ toString order_id)), s, r.bumpF) ∧
    cancel_order order_id s r =
      (Except.error (Err.orderConflict ("Unknown order " ++ toString order_id)), s, r.bumpF) := by
  have h1 : ¬ r.floats r.fi < s.fail_chance := by
    rw [hfc]; exact not_lt.mpr (hr r.fi).1
  have hci : check_order_status_impl order_id s r.bumpF =
      (Except.error (Err.orderConflict ("Unknown order " ++ toString order_id)), s, r.bumpF) := by
    unfold check_order_status_impl
    rw [hlk]
  have hca : cancel_order_impl order_id s r.bumpF =
      (Except.error (Err.orderConflict ("Unknown order " ++ toString order_id)), s, r.bumpF) := by
    unfold cancel_order_impl
    rw [hlk]
  refine ⟨?_, ?_⟩
  · unfold check_order_status
    rw [with_retry_pass s.max_retries h1 (by rw [hci]; simp), hci]
  · unfold cancel_order
    rw [with_retry_pass s.max_retries h1 (by rw [hca]; simp), hca]

/-- C2 witness: the amended statement at the fresh demo session, order id
999 and a concrete well-formed stream. -/
theorem claim2_unknown_order_conflict_witness :
    sFresh.fail_chance = 0 ∧ constRNG.WF ∧ lookupOrder sFresh._orders 999 = none ∧
    (check_order_status 999 sFresh constRNG =
      (Except.error (Err.orderConflict ("Unknown order " ++ toString 999)), sFresh, constRNG.bumpF) ∧
     cancel_order 999 sFresh constRNG =
      (Except.error (Err.orderConflict ("Unknown order " ++ toString 999)), sFresh, constRNG.bumpF)) :=
  ⟨rfl, constRNG_WF, rfl, claim2_unknown_order_conflict sFresh constRNG 999 rfl constRNG_WF rfl⟩

/-- C2 counterexample to the claim as stated: an unknown order id makes
`check_order_status` and `cancel_order` raise `OrderConflictError` — the
very same exception class a cancel conflict raises — not a distinct
`OrderNotFound` kind (none exists in the code). -/
theorem claim2_counterexample :
    (check_order_status 999 sFresh constRNG).1 =
      Except.error (Err.orderConflict "Unknown order 999") ∧
    (cancel_order 999 sFresh constRNG).1 =
      Except.error (Err.orderConflict "Unknown order 999") ∧
    (cancel_order 1 sTerm constRNG).1 =
      Except.error (Err.orderConflict "Order cannot be cancelled") := by
  refine ⟨?_, ?_, ?_⟩ <;>
    norm_num [check_order_status, cancel_order, with_retry, withRetryAux,
      check_order_status_impl, cancel_order_impl, lookupOrder, setOrder, List.find?,
      sFresh, sTerm, IQOption.mk, constRNG, RNG.bumpF, pyUpper_DEMO]
  all_goals rfl

/-- C3: code bug, shown at a concrete input.  Session: fresh demo account
with `fail_chance = 1/2`, `max_retries = 1`; draws 3/5, 3/5, 3/10 (choice
draw `win`).  `place_order` succeeds (order 1 open, balance 990).  The
subsequent `check_order_status 1` propagates `APIUnavailable` to the
caller — its outer injection draw passed, the three-way draw resolved
`win`, and then the nested wrapped `get_payout_estimate` call failed its
injection draw and exhausted `max_retries` — yet the status of the order has
already been mutated from `open` to `win` (with `result` still 0 and no
balance credit).  This contradicts the claim that a call propagating
`APIUnavailable` leaves the session state exactly as it was. -/
theorem claim3_bug_trace :
    placeC3.1 = Except.ok 1 ∧
    (lookupOrder placeC3.2.1._orders 1).map Order.status = some "open" ∧
    placeC3.2.1._balance = 990 ∧
    checkC3.1 = Except.error Err.apiUnavailable ∧
    (lookupOrder checkC3.2.1._orders 1).map Order.status = some "win" ∧
    (lookupOrder checkC3.2.1._orders 1).map Order.result = some 0 ∧
    checkC3.2.1._balance = 990 := by
  norm_num [placeC3, checkC3, sC3, rngC3, place_order, with_retry, withRetryAux,
    place_order_impl, check_order_status, check_order_status_impl, get_payout_estimate,
    get_payout_estimate_impl, IQOption.mk, pyUpper_DEMO, lookupOrder, setOrder,
    List.find?, RNG.bumpF, RNG.bumpC, Choice3.pick]

/-- C4: code bug, shown at a concrete input.  Session: fresh demo account
with `fail_chance = 1/2`, `max_retries = 2`; draws 3/5, 3/5, 3/10, 3/10,
3/5 (choice draw `win`).  `place_order` succeeds (balance 990).  In
`check_order_status 1`, the first attempt draws `win` and mutates the
status, then the nested wrapped `get_payout_estimate` call fails twice
and raises; the outer wrapper catches it and retries, finds the order no
longer `open`, and returns `("win", 0)`: the order has resolved to `win`
with `result = 0` instead of `amount * payoutRate = 10 * 0.80 = 8`, and
the balance was never credited `amount + result` (it stays 990 instead of
1008).  This contradicts what the claim states for the `win` outcome. -/
theorem claim4_bug_trace :
    placeC4.1 = Except.ok 1 ∧
    placeC4.2.1._balance = 990 ∧
    checkC4.1 = Except.ok ("win", 0) ∧
    (lookupOrder checkC4.2.1._orders 1).map Order.status = some "win" ∧
    (lookupOrder checkC4.2.1._orders 1).map Order.result = some 0 ∧
    (lookupOrder checkC4.2.1._orders 1).map Order.amount = some 10 ∧
    checkC4.2.1._balance = 990 ∧
    (get_payout_estimate_impl "EURUSD" sC4 constRNG).1 = Except.ok (0.80 : ℚ) ∧
    (10 : ℚ) * (0.80 : ℚ) = 8 := by
  norm_num [placeC4, checkC4, sC4, rngC4, place_order, with_retry, withRetryAux,
    place_order_impl, check_order_status, check_order_status_impl, get_payout_estimate,
    get_payout_estimate_impl, IQOption.mk, pyUpper_DEMO, lookupOrder, setOrder,
    List.find?, RNG.bumpF, RNG.bumpC, Choice3.pick, constRNG]

/-- No injection failure is possible when `fail_chance = 0` and the
stream is well-formed. -/
theorem no_inj_of_WF {s : Session} {r : RNG} (hfc : s.fail_chance = 0) (hr : r.WF) :
    ¬ r.floats r.fi < s.fail_chance := by
  rw [hfc]; exact not_lt.mpr (hr r.fi).1

/-- Evaluating `find?` after the replace-map used by `setOrder`, looking up the
replaced key. -/
theorem find?_map_replace (l : List (Nat × Order)) (i : Nat) (o : Order) :
    (l.map (fun p => if p.1 = i then (i, o) else p)).find? (fun p => p.1 = i) =
      (l.find? (fun p => p.1 = i)).map (fun _ => (i, o)) := by
  induction l with
  | nil => rfl
  | cons p l ih =>
    by_cases hp : p.1 = i
    · simp [List.find?_cons, hp]
    · simp [List.find?_cons, hp, ih]

/-- Evaluating `find?` after the replace-map used by `setOrder`, looking up a
different key. -/
theorem find?_map_replace_ne (l : List (Nat × Order)) (i j : Nat) (o : Order)
    (hij : j ≠ i) :
    (l.map (fun p => if p.1 = i then (i, o) else p)).find? (fun p => p.1 = j) =
      l.find? (fun p => p.1 = j) := by
  induction l with
  | nil => rfl
  | cons p l ih =>
    by_cases hp : p.1 = i
    · have hij' : i ≠ j := Ne.symm hij
      simp only [List.map_cons, List.find?_cons, if_pos hp]
      simp [hij', hp, ih]
    · simp only [List.map_cons, List.find?_cons, if_neg hp]
      by_cases hj : p.1 = j
      · simp [hj]
      · simp [hj, ih]

/-- Reading back the key just assigned by `setOrder`. -/
theorem lookupOrder_setOrder_self (l : List (Nat × Order)) (i : Nat) (o : Order) :
    lookupOrder (setOrder l i o) i = some o := by
  unfold setOrder
  by_cases h : (l.find? (fun p => p.1 = i)).isSome
  · rw [if_pos h]
    unfold lookupOrder
    rw [find?_map_replace]
    rcases hf : l.find? (fun p => p.1 = i) with _ | p
    · rw [hf] at h; simp at h
    · rw [hf]; rfl
  · rw [if_neg h]
    unfold lookupOrder
    rw [List.find?_append]
    have hnone : l.find? (fun p => p.1 = i) = none := by
      rcases hf : l.find? (fun p => p.1 = i) with _ | p
      · exact hf
      · rw [hf] at h; simp at h
    rw [hnone]
    simp [List.find?_cons]

/-- Reading any other key after a `setOrder`. -/
theorem lookupOrder_setOrder_ne (l : List (Nat × Order)) (i j : Nat) (o : Order)
    (hij : j ≠ i) :
    lookupOrder (setOrder l i o) j = lookupOrder l j := by
  unfold setOrder
  by_cases h : (l.find? (fun p => p.1 = i)).isSome
  · rw [if_pos h]
    unfold lookupOrder
    rw [find?_map_replace_ne l i j o hij]
  · rw [if_neg h]
    unfold lookupOrder
    rw [List.find?_append]
    have hnone : ([((i : Nat), o)].find? (fun p => p.1 = j)) = none := by
      simp [List.find?_cons, Ne.symm hij]
    rw [hnone, Option.or_none]

/-- Replacing an existing key leaves the key list unchanged. -/
theorem map_fst_map_replace (l : List (Nat × Order)) (i : Nat) (o : Order) :
    (l.map (fun p => if p.1 = i then (i, o) else p)).map Prod.fst = l.map Prod.fst := by
  induction l with
  | nil => rfl
  | cons p l ih =>
    by_cases hp : p.1 = i
    · simp [hp, ih]
    · simp [hp, ih]

/-- Membership after a `setOrder`. -/
theorem mem_setOrder {l : List (Nat × Order)} {i : Nat} {o : Order} {q : Nat × Order}
    (hq : q ∈ setOrder l i o) : q = (i, o) ∨ q ∈ l := by
  unfold setOrder at hq
  by_cases h : (l.find? (fun p => p.1 = i)).isSome
  · rw [if_pos h] at hq
    rcases List.mem_map.mp hq with ⟨p, hp, he⟩
    by_cases hpi : p.1 = i
    · left; rw [← he, if_pos hpi]
    · right; rw [if_neg hpi] at he; exact he ▸ hp
  · rw [if_neg h] at hq
    rcases List.mem_append.mp hq with h1 | h1
    · right; exact h1
    · left; simpa using h1

namespace IQOption

/-- The four exhaustive outcomes of `place_order` when no failure is
injected: the three validation errors, each leaving the session
untouched, and the successful placement. -/
theorem place_order_cases (s : Session) (r : RNG) (symbol direction : String) (amount : ℚ)
    (hfc : s.fail_chance = 0) (hr : r.WF) :
    (symbol ∉ s.available_symbols →
      place_order symbol direction amount s r =
        (Except.error (Err.symbolNotFound symbol), s, r.bumpF)) ∧
    (symbol ∈ s.available_symbols → direction ∉ (["buy", "sell"] : List String) →
      place_order symbol direction amount s r =
        (Except.error (Err.valueError "direction must be buy or sell"), s, r.bumpF)) ∧
    (symbol ∈ s.available_symbols → direction ∈ (["buy", "sell"] : List String) →
        amount ≤ 0 →
      place_order symbol direction amount s r =
        (Except.error (Err.valueError "amount must be positive"), s, r.bumpF)) ∧
    (symbol ∈ s.available_symbols → direction ∈ (["buy", "sell"] : List String) →
        0 < amount →
      place_order symbol direction amount s r =
        (Except.ok (s._order_counter + 1),
          { s with
              _order_counter := s._order_counter + 1
              _orders := setOrder s._orders (s._order_counter + 1)
                { id := s._order_counter + 1, symbol := symbol, direction := direction
                  amount := amount, status := "open", result := 0 }
              _balance := s._balance - amount }, r.bumpF)) := by
  have hw : place_order symbol direction amount s r =
      place_order_impl symbol direction amount s r.bumpF := by
    unfold place_order
    exact with_retry_pass s.max_retries (no_inj_of_WF hfc hr)
      (place_order_impl_ne_api _ _ _ _ _)
  refine ⟨?_, ?_, ?_, ?_⟩
  · intro hs
    rw [hw]; unfold place_order_impl
    rw [if_neg hs]
  · intro hs hd
    rw [hw]; unfold place_order_impl
    rw [if_pos hs, if_neg hd]
  · intro hs hd ha
    rw [hw]; unfold place_order_impl
    rw [if_pos hs, if_pos hd, if_pos ha]
  · intro hs hd ha
    rw [hw]; unfold place_order_impl
    rw [if_pos hs, if_pos hd, if_neg (not_le.mpr ha)]

end IQOption

/-- C5: `place_order` validates symbol membership (`SymbolNotFoundError`),
then direction membership in buy/sell and positivity of the amount
(`ValueError`, which the spec calls `InvalidArgument`); on success it allocates
`_order_counter + 1`, stores the new order with status `open`, debits
exactly `amount` from the balance, and returns the id. -/
theorem claim5_place_order_spec (s : Session) (r : RNG) (symbol direction : String)
    (amount : ℚ) (hfc : s.fail_chance = 0) (hr : r.WF) :
    (symbol ∉ s.available_symbols →
      place_order symbol direction amount s r =
        (Except.error (Err.symbolNotFound symbol), s, r.bumpF)) ∧
    (symbol ∈ s.available_symbols → direction ∉ (["buy", "sell"] : List String) →
      place_order symbol direction amount s r =
        (Except.error (Err.valueError "direction must be buy or sell"), s, r.bumpF)) ∧
    (symbol ∈ s.available_symbols → direction ∈ (["buy", "sell"] : List String) →
        amount ≤ 0 →
      place_order symbol direction amount s r =
        (Except.error (Err.valueError "amount must be positive"), s, r.bumpF)) ∧
    (symbol ∈ s.available_symbols → direction ∈ (["buy", "sell"] : List String) →
        0 < amount →
      place_order symbol direction amount s r =
        (Except.ok (s._order_counter + 1),
          { s with
              _order_counter := s._order_counter + 1
              _orders := setOrder s._orders (s._order_counter + 1)
                { id := s._order_counter + 1, symbol := symbol, direction := direction
                  amount := amount, status := "open", result := 0 }
              _balance := s._balance - amount }, r.bumpF)) :=
  place_order_cases s r symbol direction amount hfc hr

/-- C5 witness: a successful placement on the fresh demo session. -/
theorem claim5_place_order_spec_witness :
    sFresh.fail_chance = 0 ∧ constRNG.WF ∧
    ("EURUSD" : String) ∈ sFresh.available_symbols ∧
    ("buy" : String) ∈ (["buy", "sell"] : List String) ∧ (0 : ℚ) < 10 ∧
    place_order "EURUSD" "buy" 10 sFresh constRNG =
      (Except.ok (sFresh._order_counter + 1),
        { sFresh with
            _order_counter := sFresh._order_counter + 1
            _orders := setOrder sFresh._orders (sFresh._order_counter + 1)
              { id := sFresh._order_counter + 1, symbol := "EURUSD", direction := "buy"
                amount := 10, status := "open", result := 0 }
            _balance := sFresh._balance - 10 }, constRNG.bumpF) :=
  ⟨rfl, constRNG_WF, by decide, by decide, by norm_num,
    (claim5_place_order_spec sFresh constRNG "EURUSD" "buy" 10 rfl constRNG_WF).2.2.2
      (by decide) (by decide) (by norm_num)⟩

/-- C9: when `place_order` fails validation, the session is returned
entirely unchanged (no id consumed, no debit, no table growth), and a
subsequent valid placement receives the id the failed call would have
received. -/
theorem claim9_failed_validation_pure (s : Session) (r : RNG) (symbol direction : String)
    (amount : ℚ) (hfc : s.fail_chance = 0) (hr : r.WF)
    (hbad : symbol ∉ s.available_symbols ∨ direction ∉ (["buy", "sell"] : List String) ∨
      amount ≤ 0) :
    (∃ e, place_order symbol direction amount s r = (Except.error e, s, r.bumpF)) ∧
    (∀ (symbol2 direction2 : String) (amount2 : ℚ),
      symbol2 ∈ s.available_symbols → direction2 ∈ (["buy", "sell"] : List String) →
      0 < amount2 →
      (place_order symbol2 direction2 amount2 s r.bumpF).1 =
        Except.ok (s._order_counter + 1)) := by
  have hc := place_order_cases s r symbol direction amount hfc hr
  constructor
  · by_cases hs : symbol ∈ s.available_symbols
    · by_cases hd : direction ∈ (["buy", "sell"] : List String)
      · have ha : amount ≤ 0 := by
          rcases hbad with h | h | h
          · exact absurd hs h
          · exact absurd hd h
          · exact h
        exact ⟨_, hc.2.2.1 hs hd ha⟩
      · exact ⟨_, hc.2.1 hs hd⟩
    · exact ⟨_, hc.1 hs⟩
  · intro symbol2 direction2 amount2 hs2 hd2 ha2
    have h2 := (place_order_cases s r.bumpF symbol2 direction2 amount2 hfc
      (RNG.WF.bumpF hr)).2.2.2 hs2 hd2 ha2
    rw [h2]

/-- C9 witness: an invalid-symbol placement on the fresh demo session,
followed by a valid placement that receives id 1. -/
theorem claim9_failed_validation_pure_witness :
    sFresh.fail_chance = 0 ∧ constRNG.WF ∧
    ("INVALID" : String) ∉ sFresh.available_symbols ∧
    (∃ e, place_order "INVALID" "buy" 10 sFresh constRNG =
      (Except.error e, sFresh, constRNG.bumpF)) ∧
    (place_order "EURUSD" "buy" 10 sFresh constRNG.bumpF).1 =
      Except.ok (sFresh._order_counter + 1) :=
  ⟨rfl, constRNG_WF, by decide,
    (claim9_failed_validation_pure sFresh constRNG "INVALID" "buy" 10 rfl constRNG_WF
      (Or.inl (by decide))).1,
    (claim9_failed_validation_pure sFresh constRNG "INVALID" "buy" 10 rfl constRNG_WF
      (Or.inl (by decide))).2 "EURUSD" "buy" 10 (by decide) (by decide) (by norm_num)⟩

/-- C10: `place_order` imposes no sufficient-funds precondition: any valid
symbol, direction and positive amount succeeds even when the amount
exceeds the balance, and the resulting balance goes negative. -/
theorem claim10_no_funds_precondition (s : Session) (r : RNG) (symbol direction : String)
    (amount : ℚ) (hfc : s.fail_chance = 0) (hr : r.WF)
    (hs : symbol ∈ s.available_symbols) (hd : direction ∈ (["buy", "sell"] : List String))
    (ha : 0 < amount) (hover : s._balance < amount) :
    (place_order symbol direction amount s r).1 = Except.ok (s._order_counter + 1) ∧
    (place_order symbol direction amount s r).2.1._balance = s._balance - amount ∧
    (place_order symbol direction amount s r).2.1._balance < 0 := by
  have h := (place_order_cases s r symbol direction amount hfc hr).2.2.2 hs hd ha
  refine ⟨by rw [h], by rw [h], ?_⟩
  rw [h]
  show s._balance - amount < 0
  exact sub_neg.mpr hover

/-- C10 witness: placing 2000 on a demo balance of 1000 succeeds and
drives the balance to -1000. -/
theorem claim10_no_funds_precondition_witness :
    sFresh.fail_chance = 0 ∧ constRNG.WF ∧
    ("EURUSD" : String) ∈ sFresh.available_symbols ∧
    ("buy" : String) ∈ (["buy", "sell"] : List String) ∧
    (0 : ℚ) < 2000 ∧ sFresh._balance < 2000 ∧
    (place_order "EURUSD" "buy" 2000 sFresh constRNG).1 =
      Except.ok (sFresh._order_counter + 1) ∧
    (place_order "EURUSD" "buy" 2000 sFresh constRNG).2.1._balance =
      sFresh._balance - 2000 ∧
    (place_order "EURUSD" "buy" 2000 sFresh constRNG).2.1._balance < 0 :=
  ⟨rfl, constRNG_WF, by decide, by decide, by norm_num,
    by norm_num [sFresh, IQOption.mk, pyUpper_DEMO],
    claim10_no_funds_precondition sFresh constRNG "EURUSD" "buy" 2000 rfl constRNG_WF
      (by decide) (by decide) (by norm_num)
      (by norm_num [sFresh, IQOption.mk, pyUpper_DEMO])⟩

/-- C6: terminal states are absorbing.  For a stored order whose status is
`win`, `loss` or `cancelled`, `check_order_status` returns the stored
`(status, result)` pair and leaves the session exactly unchanged (so
repeated calls keep returning the same pair and resolution happens at
most once), and `cancel_order` fails with
`OrderConflictError("Order cannot be cancelled")`, also without mutation. -/
theorem claim6_terminal_absorbing (s : Session) (r : RNG) (order_id : Nat) (order : Order)
    (hfc : s.fail_chance = 0) (hr : r.WF)
    (hlk : lookupOrder s._orders order_id = some order)
    (hterm : order.status = "win" ∨ order.status = "loss" ∨ order.status = "cancelled") :
    check_order_status order_id s r = (Except.ok (order.status, order.result), s, r.bumpF) ∧
    cancel_order order_id s r =
      (Except.error (Err.orderConflict "Order cannot be cancelled"), s, r.bumpF) := by
  have hopen : ¬ order.status = "open" := by
    rcases hterm with h | h | h <;> rw [h] <;> decide
  have hci : check_order_status_impl order_id s r.bumpF =
      (Except.ok (order.status, order.result), s, r.bumpF) := by
    unfold check_order_status_impl
    simp only [hlk]
    rw [if_neg hopen]
  have hca : cancel_order_impl order_id s r.bumpF =
      (Except.error (Err.orderConflict "Order cannot be cancelled"), s, r.bumpF) := by
    unfold cancel_order_impl
    simp only [hlk]
    rw [if_neg hopen]
  constructor
  · unfold check_order_status
    rw [with_retry_pass s.max_retries (no_inj_of_WF hfc hr) (by rw [hci]; simp), hci]
  · unfold cancel_order
    rw [with_retry_pass s.max_retries (no_inj_of_WF hfc hr) (by rw [hca]; simp), hca]

/-- C6 witness: the session holding the resolved win order. -/
theorem claim6_terminal_absorbing_witness :
    sTerm.fail_chance = 0 ∧ constRNG.WF ∧
    lookupOrder sTerm._orders 1 =
      some { id := 1, symbol := "EURUSD", direction := "buy"
             amount := 10, status := "win", result := 8 } ∧
    (check_order_status 1 sTerm constRNG = (Except.ok ("win", 8), sTerm, constRNG.bumpF) ∧
     cancel_order 1 sTerm constRNG =
       (Except.error (Err.orderConflict "Order cannot be cancelled"), sTerm, constRNG.bumpF)) :=
  ⟨rfl, constRNG_WF, rfl,
    claim6_terminal_absorbing sTerm constRNG 1
      { id := 1, symbol := "EURUSD", direction := "buy"
        amount := 10, status := "win", result := 8 }
      rfl constRNG_WF rfl (Or.inl rfl)⟩

/-- Cancelling a stored open order with no failure injection: status
becomes `cancelled`, `result` is reset to 0, and the amount is credited
back. -/
theorem cancel_open_order (s : Session) (r : RNG) (order_id : Nat) (order : Order)
    (hfc : s.fail_chance = 0) (hr : r.WF)
    (hlk : lookupOrder s._orders order_id = some order)
    (hopen : order.status = "open") :
    IQOption.cancel_order order_id s r = (Except.ok true,
      { s with
          _orders := setOrder s._orders order_id
            { order with status := "cancelled", result := 0 }
          _balance := s._balance + order.amount }, r.bumpF) := by
  unfold IQOption.cancel_order
  refine (IQOption.with_retry_pass _ (no_inj_of_WF hfc hr)
    (IQOption.cancel_order_impl_ne_api _ _ _)).trans ?_
  unfold IQOption.cancel_order_impl
  simp only [hlk, hopen, if_true]

/-- Cancelling a stored non-open order with no failure injection raises
`OrderConflictError` and leaves the session untouched. -/
theorem cancel_nonopen_order (s : Session) (r : RNG) (order_id : Nat) (order : Order)
    (hfc : s.fail_chance = 0) (hr : r.WF)
    (hlk : lookupOrder s._orders order_id = some order)
    (hopen : ¬ order.status = "open") :
    IQOption.cancel_order order_id s r =
      (Except.error (Err.orderConflict "Order cannot be cancelled"), s, r.bumpF) := by
  unfold IQOption.cancel_order
  refine (IQOption.with_retry_pass _ (no_inj_of_WF hfc hr)
    (IQOption.cancel_order_impl_ne_api _ _ _)).trans ?_
  unfold IQOption.cancel_order_impl
  simp only [hlk, if_neg hopen]

/-- C7: placing an order and cancelling it before any status check marks
it `cancelled` with `result = 0`, restores the balance exactly to its
pre-order value, and a second cancel on the same id raises
`OrderConflictError` while leaving the state unchanged. -/
theorem claim7_place_then_cancel (s : Session) (r : RNG) (symbol direction : String)
    (amount : ℚ) (hfc : s.fail_chance = 0) (hr : r.WF)
    (hs : symbol ∈ s.available_symbols) (hd : direction ∈ (["buy", "sell"] : List String))
    (ha : 0 < amount)
    (p : Res Nat) (c c2 : Res Bool)
    (hp : p = place_order symbol direction amount s r)
    (hc : c = cancel_order (s._order_counter + 1) p.2.1 p.2.2)
    (hc2 : c2 = cancel_order (s._order_counter + 1) c.2.1 c.2.2) :
    p.1 = Except.ok (s._order_counter + 1) ∧
    c.1 = Except.ok true ∧
    lookupOrder c.2.1._orders (s._order_counter + 1) =
      some { id := s._order_counter + 1, symbol := symbol, direction := direction
             amount := amount, status := "cancelled", result := 0 } ∧
    c.2.1._balance = s._balance ∧
    c2.1 = Except.error (Err.orderConflict "Order cannot be cancelled") ∧
    c2.2.1 = c.2.1 := by
  subst hp
  have hplace := (place_order_cases s r symbol direction amount hfc hr).2.2.2 hs hd ha
  rw [hplace] at hc ⊢
  dsimp only at hc ⊢
  obtain ⟨s1, hs1⟩ : ∃ s1 : Session, ({ s with
      _order_counter := s._order_counter + 1
      _orders := setOrder s._orders (s._order_counter + 1)
        { id := s._order_counter + 1, symbol := symbol, direction := direction
          amount := amount, status := "open", result := 0 }
      _balance := s._balance - amount } : Session) = s1 := ⟨_, rfl⟩
  rw [hs1] at hc
  have hfc1 : s1.fail_chance = 0 := by rw [← hs1]; exact hfc
  have hlk1 : lookupOrder s1._orders (s._order_counter + 1) =
      some { id := s._order_counter + 1, symbol := symbol, direction := direction
             amount := amount, status := "open", result := 0 } := by
    rw [← hs1]
    exact lookupOrder_setOrder_self _ _ _
  have hcval : c = (Except.ok true,
      { s1 with
          _orders := setOrder s1._orders (s._order_counter + 1)
            { id := s._order_counter + 1, symbol := symbol, direction := direction
              amount := amount, status := "cancelled", result := 0 }
          _balance := s1._balance + amount }, r.bumpF.bumpF) := by
    rw [hc]
    exact cancel_open_order s1 r.bumpF _ _ hfc1 (RNG.WF.bumpF hr) hlk1 rfl
  obtain ⟨s2, hs2⟩ : ∃ s2 : Session, ({ s1 with
      _orders := setOrder s1._orders (s._order_counter + 1)
        { id := s._order_counter + 1, symbol := symbol, direction := direction
          amount := amount, status := "cancelled", result := 0 }
      _balance := s1._balance + amount } : Session) = s2 := ⟨_, rfl⟩
  rw [hs2] at hcval
  rw [hcval] at hc2 ⊢
  dsimp only at hc2 ⊢
  have hfc2 : s2.fail_chance = 0 := by rw [← hs2]; exact hfc1
  have hlk2 : lookupOrder s2._orders (s._order_counter + 1) =
      some { id := s._order_counter + 1, symbol := symbol, direction := direction
             amount := amount, status := "cancelled", result := 0 } := by
    rw [← hs2]
    exact lookupOrder_setOrder_self _ _ _
  have hc2val : c2 = (Except.error (Err.orderConflict "Order cannot be cancelled"),
      s2, r.bumpF.bumpF.bumpF) := by
    rw [hc2]
    exact cancel_nonopen_order s2 r.bumpF.bumpF _ _ hfc2
      (RNG.WF.bumpF (RNG.WF.bumpF hr)) hlk2
      (show ¬ ("cancelled" : String) = "open" by decide)
  rw [hc2val]
  dsimp only
  refine ⟨rfl, rfl, hlk2, ?_, rfl, rfl⟩
  rw [← hs2]
  show s1._balance + amount = s._balance
  rw [← hs1]
  show s._balance - amount + amount = s._balance
  ring

/-- C7 witness: place 10 on EURUSD from the fresh demo session, cancel,
then cancel again. -/
theorem claim7_place_then_cancel_witness :
    sFresh.fail_chance = 0 ∧ constRNG.WF ∧
    ("EURUSD" : String) ∈ sFresh.available_symbols ∧
    ("buy" : String) ∈ (["buy", "sell"] : List String) ∧ (0 : ℚ) < 10 ∧
    ((place_order "EURUSD" "buy" 10 sFresh constRNG).1 =
        Except.ok (sFresh._order_counter + 1) ∧
     (cancel_order (sFresh._order_counter + 1)
        (place_order "EURUSD" "buy" 10 sFresh constRNG).2.1
        (place_order "EURUSD" "buy" 10 sFresh constRNG).2.2).1 = Except.ok true ∧
     lookupOrder (cancel_order (sFresh._order_counter + 1)
        (place_order "EURUSD" "buy" 10 sFresh constRNG).2.1
        (place_order "EURUSD" "buy" 10 sFresh constRNG).2.2).2.1._orders
        (sFresh._order_counter + 1) =
      some { id := sFresh._order_counter + 1, symbol := "EURUSD", direction := "buy"
             amount := 10, status := "cancelled", result := 0 } ∧
     (cancel_order (sFresh._order_counter + 1)
        (place_order "EURUSD" "buy" 10 sFresh constRNG).2.1
        (place_order "EURUSD" "buy" 10 sFresh constRNG).2.2).2.1._balance =
       sFresh._balance ∧
     (cancel_order (sFresh._order_counter + 1)
        (cancel_order (sFresh._order_counter + 1)
          (place_order "EURUSD" "buy" 10 sFresh constRNG).2.1
          (place_order "EURUSD" "buy" 10 sFresh constRNG).2.2).2.1
        (cancel_order (sFresh._order_counter + 1)
          (place_order "EURUSD" "buy" 10 sFresh constRNG).2.1
          (place_order "EURUSD" "buy" 10 sFresh constRNG).2.2).2.2).1 =
       Except.error (Err.orderConflict "Order cannot be cancelled") ∧
     (cancel_order (sFresh._order_counter + 1)
        (cancel_order (sFresh._order_counter + 1)
          (place_order "EURUSD" "buy" 10 sFresh constRNG).2.1
          (place_order "EURUSD" "buy" 10 sFresh constRNG).2.2).2.1
        (cancel_order (sFresh._order_counter + 1)
          (place_order "EURUSD" "buy" 10 sFresh constRNG).2.1
          (place_order "EURUSD" "buy" 10 sFresh constRNG).2.2).2.2).2.1 =
       (cancel_order (sFresh._order_counter + 1)
          (place_order "EURUSD" "buy" 10 sFresh constRNG).2.1
          (place_order "EURUSD" "buy" 10 sFresh constRNG).2.2).2.1) :=
  ⟨rfl, constRNG_WF, by decide, by decide, by norm_num,
    claim7_place_then_cancel sFresh constRNG "EURUSD" "buy" 10 rfl constRNG_WF
      (by decide) (by decide) (by norm_num) _ _ _ rfl rfl rfl⟩

/-- The relation `Step` is reflexive. -/
theorem Step.refl (s : Session) : Step s s :=
  ⟨le_refl _, fun _ o h => ⟨o, h, rfl⟩⟩

/-- The relation `Step` is transitive. -/
theorem Step.trans {a b c : Session} (h1 : Step a b) (h2 : Step b c) : Step a c := by
  refine ⟨le_trans h1.1 h2.1, fun i o h => ?_⟩
  obtain ⟨o1, hl1, hid1⟩ := h1.2 i o h
  obtain ⟨o2, hl2, hid2⟩ := h2.2 i o1 hl1
  exact ⟨o2, hl2, hid2.trans hid1⟩

/-- A successful lookup means the pair is stored. -/
theorem lookupOrder_mem {l : List (Nat × Order)} {i : Nat} {o : Order}
    (h : lookupOrder l i = some o) : (i, o) ∈ l := by
  unfold lookupOrder at h
  rcases hf : l.find? (fun p => p.1 = i) with _ | p
  · rw [hf] at h; simp at h
  · rw [hf] at h
    have hsnd : p.2 = o := Option.some.inj h
    have hp := List.find?_some hf
    simp only [decide_eq_true_eq] at hp
    have hm := List.mem_of_find?_eq_some hf
    have hpe : p = (i, o) := by
      rcases p with ⟨pi, po⟩
      rw [show pi = i from hp, show po = o from hsnd]
    exact hpe ▸ hm

/-- A lookup that hits in the left part of an append still hits. -/
theorem lookupOrder_append_left {l : List (Nat × Order)} {j : Nat} {o : Order}
    (l2 : List (Nat × Order)) (h : lookupOrder l j = some o) :
    lookupOrder (l ++ l2) j = some o := by
  unfold lookupOrder at h ⊢
  rw [List.find?_append]
  rcases hf : l.find? (fun p => p.1 = j) with _ | p
  · rw [hf] at h; simp at h
  · rw [hf] at h
    rw [hf]
    exact h

/-- Replacing a stored order by one with the same `id` field preserves the
session invariant and the id structure, whatever happens to the balance. -/
theorem sessionInv_replace {s s2 : Session} {i : Nat} {o o2 : Order}
    (hlk : lookupOrder s._orders i = some o)
    (ho : s2._orders = setOrder s._orders i o2)
    (hcnt : s2._order_counter = s._order_counter)
    (hid : o2.id = o.id)
    (hInv : SessionInv s) : SessionInv s2 ∧ Step s s2 := by
  have hmem := lookupOrder_mem hlk
  have hido : o.id = i := (hInv.1 _ hmem).1
  have hfind : (s._orders.find? (fun p => p.1 = i)).isSome := by
    unfold lookupOrder at hlk
    rcases hf : s._orders.find? (fun p => p.1 = i) with _ | p
    · rw [hf] at hlk; simp at hlk
    · rw [hf]; rfl
  refine ⟨⟨?_, ?_⟩, ?_, ?_⟩
  · intro p hp
    rw [ho] at hp
    rcases mem_setOrder hp with he | hmem2
    · have hb := hInv.1 _ hmem
      rw [he, hcnt]
      exact ⟨by rw [hid, hido], hb.2.1, hb.2.2⟩
    · rw [hcnt]
      exact hInv.1 p hmem2
  · rw [ho]
    show ((setOrder s._orders i o2).map Prod.fst).Nodup
    unfold setOrder
    rw [if_pos hfind, map_fst_map_replace]
    exact hInv.2
  · rw [hcnt]
  · intro j oj hj
    by_cases hji : j = i
    · subst hji
      refine ⟨o2, ?_, ?_⟩
      · rw [ho]; exact lookupOrder_setOrder_self _ _ _
      · rw [hlk] at hj
        injection hj with hj
        rw [hid, hj]
    · refine ⟨oj, ?_, rfl⟩
      rw [ho, lookupOrder_setOrder_ne _ _ _ _ hji]
      exact hj

/-- The body of `place_order` preserves the session invariant and the id
structure: validation failures change nothing, and a successful placement
stores a fresh id equal to the incremented counter. -/
theorem sessionInv_place (symbol direction : String) (amount : ℚ)
    (s : Session) (r : RNG) (hInv : SessionInv s) :
    SessionInv (IQOption.place_order_impl symbol direction amount s r).2.1 ∧
    Step s (IQOption.place_order_impl symbol direction amount s r).2.1 := by
  unfold IQOption.place_order_impl
  split
  · split
    · split
      · exact ⟨hInv, Step.refl s⟩
      · dsimp only
        have hfind : ¬ (s._orders.find? (fun p => p.1 = s._order_counter + 1)).isSome := by
          rw [List.find?_eq_none.mpr]
          · simp
          · intro p hp
            simp only [decide_eq_true_eq]
            have := (hInv.1 p hp).2.2
            omega
        have hso : setOrder s._orders (s._order_counter + 1)
            { id := s._order_counter + 1, symbol := symbol, direction := direction
              amount := amount, status := "open", result := 0 } =
            s._orders ++ [(s._order_counter + 1,
              { id := s._order_counter + 1, symbol := symbol, direction := direction
                amount := amount, status := "open", result := 0 })] := by
          unfold setOrder
          rw [if_neg hfind]
        refine ⟨⟨?_, ?_⟩, ?_, ?_⟩
        · intro p hp
          dsimp only at hp
          rw [hso] at hp
          rcases List.mem_append.mp hp with h1 | h1
          · have hb := hInv.1 p h1
            exact ⟨hb.1, hb.2.1, le_trans hb.2.2 (Nat.le_succ _)⟩
          · simp only [List.mem_singleton] at h1
            rw [h1]
            exact ⟨rfl, Nat.succ_le_succ (Nat.zero_le _), le_refl _⟩
        · dsimp only
          rw [hso, List.map_append]
          rw [List.nodup_append]
          refine ⟨hInv.2, List.nodup_singleton _, ?_⟩
          intro k hk1 hk2
          simp only [List.map_cons, List.map_nil, List.mem_singleton] at hk2
          rcases List.mem_map.mp hk1 with ⟨p, hp, hpk⟩
          have := (hInv.1 p hp).2.2
          omega
        · exact Nat.le_succ _
        · intro j oj hj
          refine ⟨oj, ?_, rfl⟩
          dsimp only
          rw [hso]
          exact lookupOrder_append_left _ hj
    · exact ⟨hInv, Step.refl s⟩
  · exact ⟨hInv, Step.refl s⟩

/-- The body of `cancel_order` preserves the session invariant and the id
structure. -/
theorem sessionInv_cancel (order_id : Nat) (s : Session) (r : RNG) (hInv : SessionInv s) :
    SessionInv (IQOption.cancel_order_impl order_id s r).2.1 ∧
    Step s (IQOption.cancel_order_impl order_id s r).2.1 := by
  unfold IQOption.cancel_order_impl
  split
  · exact ⟨hInv, Step.refl s⟩
  · next order heq =>
    split
    · exact sessionInv_replace heq rfl rfl rfl hInv
    · exact ⟨hInv, Step.refl s⟩

/-- The body of `get_payout_estimate` leaves the session untouched. -/
theorem sessionInv_payout (symbol : String) (s : Session) (r : RNG) (hInv : SessionInv s) :
    SessionInv (IQOption.get_payout_estimate_impl symbol s r).2.1 ∧
    Step s (IQOption.get_payout_estimate_impl symbol s r).2.1 := by
  unfold IQOption.get_payout_estimate_impl
  split
  · exact ⟨hInv, Step.refl s⟩
  · exact ⟨hInv, Step.refl s⟩

/-- The body of `check_order_status` preserves the session invariant and
the id structure, in every branch: missing id and terminal status leave
the state untouched; resolving an open order (any draw, with or without a
successful nested payout call) only replaces stored orders by orders with
the same `id`. -/
theorem sessionInv_check (order_id : Nat) (s : Session) (r : RNG) (hInv : SessionInv s) :
    SessionInv ((IQOption.check_order_status_impl order_id s r).2.1) ∧
    Step s ((IQOption.check_order_status_impl order_id s r).2.1) := by
  unfold IQOption.check_order_status_impl
  split
  · exact ⟨hInv, Step.refl s⟩
  · next order heq =>
    by_cases hst : order.status = "open"
    · rw [if_pos hst]
      dsimp only
      have h1 : SessionInv
          ({ s with
              _orders := setOrder s._orders order_id
                { order with status := (r.choices r.ci).pick } } : Session) ∧
          Step s
          ({ s with
              _orders := setOrder s._orders order_id
                { order with status := (r.choices r.ci).pick } } : Session) :=
        sessionInv_replace heq rfl rfl rfl hInv
      have hlk1 : lookupOrder
          ({ s with
              _orders := setOrder s._orders order_id
                { order with status := (r.choices r.ci).pick } } : Session)._orders
          order_id = some { order with status := (r.choices r.ci).pick } :=
        lookupOrder_setOrder_self _ _ _
      split
      · split
        · next payout s2 r2 hpe =>
          have hs2 : s2 =
              ({ s with
                  _orders := setOrder s._orders order_id
                    { order with status := (r.choices r.ci).pick } } : Session) := by
            have h := IQOption.get_payout_estimate_state order.symbol
              ({ s with
                  _orders := setOrder s._orders order_id
                    { order with status := (r.choices r.ci).pick } } : Session) r.bumpC
            rw [hpe] at h
            exact h
          subst hs2
          have h2 : SessionInv
              ({ s with
                  _orders := setOrder
                    (setOrder s._orders order_id
                      { order with status := (r.choices r.ci).pick })
                    order_id
                    { order with status := (r.choices r.ci).pick, result := order.amount * payout }
                  _balance := s._balance + order.amount + order.amount * payout } : Session) ∧
              Step
              ({ s with
                  _orders := setOrder s._orders order_id
                    { order with status := (r.choices r.ci).pick } } : Session)
              ({ s with
                  _orders := setOrder
                    (setOrder s._orders order_id
                      { order with status := (r.choices r.ci).pick })
                    order_id
                    { order with status := (r.choices r.ci).pick, result := order.amount * payout }
                  _balance := s._balance + order.amount + order.amount * payout } : Session) :=
            sessionInv_replace hlk1 rfl rfl rfl h1.1
          exact ⟨h2.1, Step.trans h1.2 h2.2⟩
        · next e s2 r2 hpe =>
          have hs2 : s2 =
              ({ s with
                  _orders := setOrder s._orders order_id
                    { order with status := (r.choices r.ci).pick } } : Session) := by
            have h := IQOption.get_payout_estimate_state order.symbol
              ({ s with
                  _orders := setOrder s._orders order_id
                    { order with status := (r.choices r.ci).pick } } : Session) r.bumpC
            rw [hpe] at h
            exact h
          subst hs2
          exact h1
      · split
        · have h2 : SessionInv
              ({ s with
                  _orders := setOrder
                    (setOrder s._orders order_id
                      { order with status := (r.choices r.ci).pick })
                    order_id
                    { order with status := (r.choices r.ci).pick, result := -order.amount } } : Session) ∧
              Step
              ({ s with
                  _orders := setOrder s._orders order_id
                    { order with status := (r.choices r.ci).pick } } : Session)
              ({ s with
                  _orders := setOrder
                    (setOrder s._orders order_id
                      { order with status := (r.choices r.ci).pick })
                    order_id
                    { order with status := (r.choices r.ci).pick, result := -order.amount } } : Session) :=
            sessionInv_replace hlk1 rfl rfl rfl h1.1
          exact ⟨h2.1, Step.trans h1.2 h2.2⟩
        · have h2 : SessionInv
              ({ s with
                  _orders := setOrder
                    (setOrder s._orders order_id
                      { order with status := (r.choices r.ci).pick })
                    order_id
                    { order with status := (r.choices r.ci).pick, result := 0 } } : Session) ∧
              Step
              ({ s with
                  _orders := setOrder s._orders order_id
                    { order with status := (r.choices r.ci).pick } } : Session)
              ({ s with
                  _orders := setOrder
                    (setOrder s._orders order_id
                      { order with status := (r.choices r.ci).pick })
                    order_id
                    { order with status := (r.choices r.ci).pick, result := 0 } } : Session) :=
            sessionInv_replace hlk1 rfl rfl rfl h1.1
          exact ⟨h2.1, Step.trans h1.2 h2.2⟩
    · rw [if_neg hst]
      exact ⟨hInv, Step.refl s⟩

/-- Every public call preserves the session invariant and the id
structure. -/
theorem sessionInv_runOp (op : Op) (s : Session) (r : RNG) (hInv : SessionInv s) :
    SessionInv (runOp op s r).1 ∧ Step s (runOp op s r).1 := by
  cases op with
  | placeOrder symbol direction amount =>
    exact IQOption.withRetryAux_pres Step.refl (fun _ _ _ => Step.trans)
      (fun s r => sessionInv_place symbol direction amount s r) _ s r hInv
  | checkOrderStatus order_id =>
    exact IQOption.withRetryAux_pres Step.refl (fun _ _ _ => Step.trans)
      (fun s r => sessionInv_check order_id s r) _ s r hInv
  | cancelOrder order_id =>
    exact IQOption.withRetryAux_pres Step.refl (fun _ _ _ => Step.trans)
      (fun s r => sessionInv_cancel order_id s r) _ s r hInv
  | getPayoutEstimate symbol =>
    exact IQOption.withRetryAux_pres Step.refl (fun _ _ _ => Step.trans)
      (fun s r => sessionInv_payout symbol s r) _ s r hInv
  | balanceOp => exact ⟨hInv, Step.refl s⟩

/-- Any run of public calls preserves the session invariant and the id
structure. -/
theorem sessionInv_runTrace (ops : List Op) :
    ∀ (s : Session) (r : RNG), SessionInv s →
      SessionInv (runTrace ops s r).1 ∧ Step s (runTrace ops s r).1 := by
  induction ops with
  | nil => exact fun s _ h => ⟨h, Step.refl s⟩
  | cons op ops ih =>
    intro s r h
    have h1 := sessionInv_runOp op s r h
    have h2 := ih (runOp op s r).1 (runOp op s r).2 h1.1
    exact ⟨h2.1, Step.trans h1.2 h2.2⟩

/-- A successful result of a wrapped call whose body never raises
`APIUnavailableError` is a result of a single body run from the original
session state. -/
theorem withRetryAux_ok {α : Type} {fc : ℚ} {f : Session → RNG → Res α}
    (hne : ∀ s r, (f s r).1 ≠ Except.error Err.apiUnavailable) :
    ∀ (fuel : Nat) (s : Session) (r : RNG) (v : α),
      (IQOption.withRetryAux fc f fuel s r).1 = Except.ok v →
      ∃ r2, (f s r2).1 = Except.ok v := by
  intro fuel
  induction fuel using Nat.strong_induction_on with
  | _ fuel ih =>
    intro s r v hok
    rw [IQOption.withRetryAux_eq] at hok
    by_cases hinj : r.floats r.fi < fc
    · rw [if_pos hinj] at hok
      match fuel, hok with
      | 0, hok => simp at hok
      | 1, hok => simp at hok
      | n + 2, hok => exact ih (n + 1) (by omega) s r.bumpF v hok
    · rw [if_neg hinj] at hok
      rcases hres : f s r.bumpF with ⟨res, s1, r1⟩
      rw [hres] at hok
      cases res with
      | ok w => exact ⟨r.bumpF, by rw [hres]; exact hok⟩
      | error e =>
        cases e with
        | apiUnavailable => exact absurd (by rw [hres]) (hne s r.bumpF)
        | symbolNotFound a => simp at hok
        | orderConflict a => simp at hok
        | valueError a => simp at hok

/-- A successful `place_order` call always returns the incremented
counter of the session it started from. -/
theorem place_order_ok (symbol direction : String) (amount : ℚ)
    (s : Session) (r : RNG) (v : Nat)
    (hok : (place_order symbol direction amount s r).1 = Except.ok v) :
    v = s._order_counter + 1 := by
  obtain ⟨r2, h⟩ := withRetryAux_ok
    (fun s r => IQOption.place_order_impl_ne_api symbol direction amount s r)
    (max s.max_retries 1) s r v hok
  unfold IQOption.place_order_impl at h
  split at h
  · split at h
    · split at h
      · simp at h
      · dsimp only at h
        injection h with h
        exact h.symm
    · simp at h
  · simp at h

/-- C8: order ids are unique and strictly increasing over the session
lifetime.  The counter starts at 0 at construction and the fresh session
satisfies the table invariant (ids positive, bounded by the counter,
pairwise distinct, each stored `id` field equal to its key); every run
of public calls preserves that invariant, never decreases the counter,
and keeps every stored order reachable under its id with its `id` field
unchanged (so no id is ever reused or reassigned); and every successful
placement returns exactly the incremented counter (so the first id is 1
and successive ids strictly increase). -/
theorem claim8_order_ids (email password account_type : String) (fc : ℚ) (mr : Nat)
    (ops : List Op) (s : Session) (r : RNG) (hInv : SessionInv s) :
    (IQOption.mk email password account_type fc mr)._order_counter = 0 ∧
    SessionInv (IQOption.mk email password account_type fc mr) ∧
    SessionInv (runTrace ops s r).1 ∧
    s._order_counter ≤ (runTrace ops s r).1._order_counter ∧
    (∀ (i : Nat) (o : Order), lookupOrder s._orders i = some o →
      ∃ o2, lookupOrder (runTrace ops s r).1._orders i = some o2 ∧ o2.id = o.id) ∧
    (∀ (symbol direction : String) (amount : ℚ) (r0 : RNG) (v : Nat),
      (place_order symbol direction amount s r0).1 = Except.ok v →
      v = s._order_counter + 1) := by
  have h := sessionInv_runTrace ops s r hInv
  refine ⟨rfl, ⟨fun p hp => absurd hp (List.not_mem_nil p), List.nodup_nil⟩,
    h.1, h.2.1, h.2.2, ?_⟩
  intro symbol direction amount r0 v hok
  exact place_order_ok symbol direction amount s r0 v hok

/-- C8 witness: the invariant holds on the fresh demo session and is
preserved by a concrete one-placement trace with a nondecreasing
counter. -/
theorem claim8_order_ids_witness :
    SessionInv sFresh ∧
    ((IQOption.mk "user" "pass" "DEMO" 0 3)._order_counter = 0 ∧
     SessionInv (runTrace [Op.placeOrder "EURUSD" "buy" 10] sFresh constRNG).1 ∧
     sFresh._order_counter ≤
       (runTrace [Op.placeOrder "EURUSD" "buy" 10] sFresh constRNG).1._order_counter) :=
  ⟨⟨fun p hp => absurd hp (List.not_mem_nil p), List.nodup_nil⟩,
    (claim8_order_ids "user" "pass" "DEMO" 0 3 [Op.placeOrder "EURUSD" "buy" 10]
      sFresh constRNG
      ⟨fun p hp => absurd hp (List.not_mem_nil p), List.nodup_nil⟩).1,
    (claim8_order_ids "user" "pass" "DEMO" 0 3 [Op.placeOrder "EURUSD" "buy" 10]
      sFresh constRNG
      ⟨fun p hp => absurd hp (List.not_mem_nil p), List.nodup_nil⟩).2.2.1,
    (claim8_order_ids "user" "pass" "DEMO" 0 3 [Op.placeOrder "EURUSD" "buy" 10]
      sFresh constRNG
      ⟨fun p hp => absurd hp (List.not_mem_nil p), List.nodup_nil⟩).2.2.2.1⟩
